import Mathlib

/-!
Shallow embedding of `src/tweetCollector.py`: an incremental Twitter-timeline
mirror.  The script walks a user timeline through a tweepy cursor
(`retrieve_user_tweet`), locates the resume point as the maximum stored tweet
id (`get_user_tweets`, lines 177-186), streams every retrieved tweet into a
MongoDB collection (`MongoServer`), and fans the work out across one thread
per account (`DataRetrievalThread`).

External collaborators (the Twitter API reached through tweepy, and MongoDB
reached through pymongo) are modelled explicitly: the provider is a timeline
(a list of documents, newest first) whose per-call behaviour — yield the next
item, raise `RateLimitError`, raise `TweepError`, or raise `StopIteration` at
end of data — is driven by an explicit event schedule; the store is a map
from collection name to a list of documents, with per-attempt fault
schedules for connectivity failures.
-/

namespace TweetCollector

/-- A tweet document as the script sees it: the provider-assigned `id` field
and the embedded `user.screen_name` of the payload (the only two fields the
script ever reads; the rest of the payload is persisted verbatim and is
irrelevant to control flow). -/
structure Doc where
  id : Nat
  screenName : String
deriving DecidableEq

/-- A Python value occurring as the `since_id` / `since_tweet_id` argument:
`None`, an integer tweet id, or a pymongo result cursor (a sequence of
documents).  The last form arises because `get_user_tweets` (line 194) passes
`latest_tweet_doc` — the pymongo cursor — as `since_tweet_id`. -/
inductive SinceVal where
  | none
  | int (n : Nat)
  | docs (ds : List Doc)
deriving DecidableEq

/-- Twitter `max_id` bound: an inclusive upper bound on tweet ids when
present (per the Twitter API, `max_id` returns tweets with id less than or
equal to the given value). -/
def maxOk (maxId : Option Nat) (d : Doc) : Bool :=
  match maxId with
  | Option.none => true
  | some m => d.id ≤ m

/-- State of a `tweepy.Cursor(api.user_timeline, ...).items()` iterator: the
full timeline of the account (newest first), the `max_id` and `since_id`
request parameters, and the remaining not-yet-returned items. -/
structure TCursor where
  timeline : List Doc
  maxId : Option Nat
  sinceId : SinceVal
  rem : List Doc
deriving DecidableEq

/-- Construction of a tweepy items cursor.  A `since_id` that is an integer
is an exclusive lower bound and `max_id` an inclusive upper bound, per the
Twitter API.  When `since_id` is not an id at all (the pymongo cursor object
passed at line 194) the request parameter is invalid; the provider's
behaviour is then not determined by `src`, and we model it as the provider
rejecting every such request with its transient-error signal (`TweepError`),
so the cursor's item list is empty and iteration never succeeds. -/
def mkCursor (timeline : List Doc) (maxId : Option Nat) (sinceId : SinceVal) : TCursor :=
  { timeline := timeline
    maxId := maxId
    sinceId := sinceId
    rem :=
      match sinceId with
      | SinceVal.docs _ => []
      | SinceVal.none => timeline.filter (fun d => maxOk maxId d)
      | SinceVal.int s => timeline.filter (fun d => maxOk maxId d && decide (s < d.id)) }

/-- Scheduled provider behaviour for one `cursor.next()` call: answer
normally, raise `tweepy.RateLimitError`, or raise `tweepy.TweepError`. -/
inductive Event where
  | ok
  | rateLimit
  | tweepErr
deriving DecidableEq

/-- Behaviour of the next provider call under a fault schedule: past the end
of the schedule the provider answers normally. -/
def schedHead (evs : List Event) : Event :=
  match evs with
  | [] => Event.ok
  | e :: _ => e

/-- Outcome of one `cursor.next()` call. -/
inductive NextOutcome where
  | item (d : Doc) (c : TCursor)
  | stopIteration
  | rateLimitError
  | tweepError
deriving DecidableEq

/-- One `cursor.next()` call under the scheduled behaviour `e`.  A cursor
whose `since_id` is not an id raises the transient error on every call (see
`mkCursor`); an exhausted cursor raises `StopIteration`. -/
def cursorNext (c : TCursor) (e : Event) : NextOutcome :=
  match e with
  | Event.rateLimit => NextOutcome.rateLimitError
  | Event.tweepErr => NextOutcome.tweepError
  | Event.ok =>
    match c.sinceId with
    | SinceVal.docs _ => NextOutcome.tweepError
    | SinceVal.none =>
      match c.rem with
      | [] => NextOutcome.stopIteration
      | d :: rest => NextOutcome.item d { c with rem := rest }
    | SinceVal.int _ =>
      match c.rem with
      | [] => NextOutcome.stopIteration
      | d :: rest => NextOutcome.item d { c with rem := rest }

/-- Generator state of `retrieve_user_tweet`: the current cursor and the
Python variable `tweet`, which is the empty string (here `Option.none`)
until the first item is yielded and afterwards the most recently yielded
item. -/
structure WalkerState where
  cursor : TCursor
  lastTweet : Option Doc
deriving DecidableEq

/-- Result of one iteration of the `while True` loop of
`retrieve_user_tweet`: an item is yielded, or the generator sleeps
`sleepSeconds` and loops, or it returns (on `StopIteration`). -/
inductive StepResult where
  | yielded (d : Doc) (s : WalkerState)
  | paused (sleepSeconds : Nat) (s : WalkerState)
  | finished
deriving DecidableEq

/-- One iteration of the loop body of `retrieve_user_tweet` (lines 141-164).
On `RateLimitError` and on `TweepError` alike: if `tweet` is not the empty
string, the cursor is rebuilt with `max_id` equal to the id of the most
recently yielded tweet and `since_id` equal to the function's
`since_tweet_id` argument, then the generator sleeps 15 * 60 seconds; on
`StopIteration` the generator returns. -/
def retrieve_user_tweet_step (timeline : List Doc) (since_tweet_id : SinceVal)
    (s : WalkerState) (e : Event) : StepResult :=
  match cursorNext s.cursor e with
  | NextOutcome.item d c => StepResult.yielded d { cursor := c, lastTweet := some d }
  | NextOutcome.stopIteration => StepResult.finished
  | NextOutcome.rateLimitError =>
    match s.lastTweet with
    | some t =>
      StepResult.paused (15 * 60)
        { cursor := mkCursor timeline (some t.id) since_tweet_id, lastTweet := some t }
    | Option.none => StepResult.paused (15 * 60) s
  | NextOutcome.tweepError =>
    match s.lastTweet with
    | some t =>
      StepResult.paused (15 * 60)
        { cursor := mkCursor timeline (some t.id) since_tweet_id, lastTweet := some t }
    | Option.none => StepResult.paused (15 * 60) s

/-- Fuel-bounded run of the `retrieve_user_tweet` generator: returns the
list of yielded items in order and whether the generator returned normally
(`true` on `StopIteration`) within the given fuel.  The event schedule gives
the provider behaviour of each successive `cursor.next()` call; past its end
the provider answers normally. -/
def retrieve_user_tweet (timeline : List Doc) (since_tweet_id : SinceVal) :
    Nat → WalkerState → List Event → List Doc × Bool
  | 0, _, _ => ([], false)
  | fuel + 1, s, evs =>
    match retrieve_user_tweet_step timeline since_tweet_id s (schedHead evs) with
    | StepResult.yielded d s2 =>
      (d :: (retrieve_user_tweet timeline since_tweet_id fuel s2 evs.tail).1,
       (retrieve_user_tweet timeline since_tweet_id fuel s2 evs.tail).2)
    | StepResult.paused _ s2 => retrieve_user_tweet timeline since_tweet_id fuel s2 evs.tail
    | StepResult.finished => ([], true)

/-- Descending order on documents by their `id` field: the sort direction
`[("id", pymongo.DESCENDING)]` used by `get_user_tweets`. -/
def descId (a b : Doc) : Prop := b.id ≤ a.id

instance : DecidableRel descId := fun a b => inferInstanceAs (Decidable (b.id ≤ a.id))

instance : IsTotal Doc descId := ⟨fun a b => Nat.le_total b.id a.id⟩

instance : IsTrans Doc descId := ⟨fun _ _ _ hab hbc => le_trans hbc hab⟩

/-- MongoDB `find` as `MongoServer.find_docs` issues it for the query shape
of `get_user_tweets`: filter `{"user.screen_name": user}`, sort
`[("id", pymongo.DESCENDING)]`, and `limit` (where, per pymongo, a limit of
0 means no limit).  The projection `{"_id": 0, "id": 1}` only trims fields
and is not modelled. -/
def find_docs (coll : List Doc) (user : String) (limit : Nat) : List Doc :=
  if limit = 0 then
    List.insertionSort descId (coll.filter (fun d => decide (d.screenName = user)))
  else
    (List.insertionSort descId (coll.filter (fun d => decide (d.screenName = user)))).take limit

/-- Resume-point computation of `get_user_tweets` (lines 177-186):
`latest_tweet_id` starts as `None` and the `for doc in latest_tweet_doc`
loop overwrites it with `doc["id"]` for each returned document (at most one,
since the query uses limit 1). -/
def latest_tweet_id (coll : List Doc) (user : String) : Option Nat :=
  (find_docs coll user 1).foldl (fun _ d => some d.id) Option.none

/-- Python truthiness of the `latest_tweet_id` value tested at line 188
(`if latest_tweet_id:`): `None` and `0` are falsy, every other integer is
truthy. -/
def truthy (v : Option Nat) : Bool :=
  match v with
  | Option.none => false
  | some n => decide (n ≠ 0)

/-- The `since_id` keyword argument built from `latest_tweet_id` for the
initial cursor at line 193: `None` stays `None` (no lower bound), an
integer — including 0 — is passed through. -/
def toSince (v : Option Nat) : SinceVal :=
  match v with
  | Option.none => SinceVal.none
  | some n => SinceVal.int n

/-- A store operation performed by `get_user_tweets` against `MongoServer`:
the single resume-point query or the insertion of one tweet document. -/
inductive StoreOp where
  | read (user : String)
  | write (d : Doc)
deriving DecidableEq

/-- The `for tweet in retrieve_user_tweet(...)` loop of `get_user_tweets`
(lines 193-196): each yielded tweet is written to the store as it arrives.
Same shape as `retrieve_user_tweet`, but emitting one write per yield. -/
def sync_loop (timeline : List Doc) (since_tweet_id : SinceVal) :
    Nat → WalkerState → List Event → List StoreOp × Bool
  | 0, _, _ => ([], false)
  | fuel + 1, s, evs =>
    match retrieve_user_tweet_step timeline since_tweet_id s (schedHead evs) with
    | StepResult.yielded d s2 =>
      (StoreOp.write d :: (sync_loop timeline since_tweet_id fuel s2 evs.tail).1,
       (sync_loop timeline since_tweet_id fuel s2 evs.tail).2)
    | StepResult.paused _ s2 => sync_loop timeline since_tweet_id fuel s2 evs.tail
    | StepResult.finished => ([], true)

/-- Observable outcome of one `get_user_tweets` run: the `since_id` used in
the provider request at line 193, the diagnostic branch taken at line 188
(`true` for "Updating tweets", `false` for "Extracting tweets"), the
sequence of store operations in order, and whether the run completed
(provider reported end of data within the fuel). -/
structure SyncResult where
  requestSince : SinceVal
  updateDiag : Bool
  ops : List StoreOp
  finished : Bool
deriving DecidableEq

/-- One run of `get_user_tweets` (lines 167-196).  Faithful to the source:
the resume query runs once; the initial cursor is built with
`since_id=latest_tweet_id`; but `retrieve_user_tweet` receives
`latest_tweet_doc` — the pymongo result cursor, a sequence of documents —
as its `since_tweet_id` argument (line 194), not `latest_tweet_id`. -/
def get_user_tweets (timeline : List Doc) (coll : List Doc) (user : String)
    (fuel : Nat) (evs : List Event) : SyncResult :=
  { requestSince := toSince ((find_docs coll user 1).foldl (fun _ d => some d.id) Option.none)
    updateDiag := truthy ((find_docs coll user 1).foldl (fun _ d => some d.id) Option.none)
    ops := StoreOp.read user ::
      (sync_loop timeline (SinceVal.docs (find_docs coll user 1)) fuel
        ⟨mkCursor timeline Option.none
          (toSince ((find_docs coll user 1).foldl (fun _ d => some d.id) Option.none)),
         Option.none⟩ evs).1
    finished :=
      (sync_loop timeline (SinceVal.docs (find_docs coll user 1)) fuel
        ⟨mkCursor timeline Option.none
          (toSince ((find_docs coll user 1).foldl (fun _ d => some d.id) Option.none)),
         Option.none⟩ evs).2 }

/-- Documents written by the store-operation trace of a sync run, in
order. -/
def writesOfOps (ops : List StoreOp) : List Doc :=
  ops.filterMap (fun op =>
    match op with
    | StoreOp.write d => some d
    | StoreOp.read _ => Option.none)

/-- Documents written by a `get_user_tweets` run, in order. -/
def writesOf (r : SyncResult) : List Doc :=
  writesOfOps r.ops

/-- Errors a pymongo operation can raise: the two transient connectivity
failures named at lines 106 and 109 (`NetworkTimeout`, `ConnectionFailure`)
and any other, non-transient, error. -/
inductive MongoErr where
  | networkTimeout
  | connectionFailure
  | other
deriving DecidableEq

/-- Whether `write_doc_to_collection` has an `except` clause for the
error. -/
def isTransientConn : MongoErr → Bool
  | MongoErr.networkTimeout => true
  | MongoErr.connectionFailure => true
  | MongoErr.other => false

/-- State of a `MongoServer`: how many times `reset_client` has run, and the
content of every collection (the database name is fixed throughout the
script). -/
structure MongoState where
  resets : Nat
  colls : String → List Doc

/-- The `reset_client` method: close and reopen the client connection. -/
def reset_client (st : MongoState) : MongoState :=
  { st with resets := st.resets + 1 }

/-- Result of a successful `insert_one` of `d` into collection `coll`. -/
def insertDoc (st : MongoState) (coll : String) (d : Doc) : MongoState :=
  { st with colls := fun c => if c = coll then st.colls c ++ [d] else st.colls c }

/-- The `MongoServer.write_doc_to_collection` method (lines 93-111).  The
schedule gives the outcome of each successive `insert_one` attempt (`none` =
success; past the end of the schedule, attempts succeed).  `NetworkTimeout`
and `ConnectionFailure` are caught: the client is reset and the same write
is retried; any other error propagates. -/
def write_doc_to_collection (st : MongoState) (coll : String) (d : Doc) :
    List (Option MongoErr) → Except MongoErr MongoState
  | [] => Except.ok (insertDoc st coll d)
  | Option.none :: _ => Except.ok (insertDoc st coll d)
  | some e :: rest =>
    if isTransientConn e then write_doc_to_collection (reset_client st) coll d rest
    else Except.error e

/-- The `MongoServer.find_docs` method (lines 113-126) at the query shape
`get_user_tweets` uses, with the outcome of the underlying `find` call made
explicit.  The method body has no `try`/`except`: on any error the exception
propagates to the caller unchanged, and the client is not reset. -/
def find_docs_gw (st : MongoState) (coll : String) (user : String) (limit : Nat)
    (outcome : Option MongoErr) : Except MongoErr (List Doc × MongoState) :=
  match outcome with
  | Option.none => Except.ok (find_docs (st.colls coll) user limit, st)
  | some e => Except.error e

/-- Concurrent execution of the per-account `DataRetrievalThread`s
(lines 199-226): each thread performs its sequence of store writes into its
own collection (`db_conf_list` is `[database_name, username]`, so collection
names are the per-thread usernames).  A schedule is any interleaving of the
per-thread write sequences: its restriction to each thread's collection is
exactly that thread's sequence.  A thread killed by an uncaught fatal store
error simply contributes the truncated sequence of writes it performed
before dying (in CPython an uncaught exception terminates only its own
thread). -/
def IsThreadSchedule (units : List (String × List Doc)) (sched : List (String × Doc)) : Prop :=
  ∀ u ∈ units, (sched.filter (fun op => decide (op.1 = u.1))).map Prod.snd = u.2

/-- Application of an interleaved write schedule to the shared store: each
operation appends its document to its collection. -/
def applySchedule (sched : List (String × Doc)) (store : String → List Doc) :
    String → List Doc :=
  sched.foldl (fun st op => fun c => if c = op.1 then st c ++ [op.2] else st c) store

/-- An initial `MongoServer` state: fresh connection, empty store. -/
def mongoInit : MongoState :=
  { resets := 0, colls := fun _ => [] }

/-- Example feed of §8 of the design document: the stored collection of
account "alice" holds tweet ids 100, 101, 105. -/
def coll1 : List Doc :=
  [Doc.mk 100 "alice", Doc.mk 101 "alice", Doc.mk 105 "alice"]

/-- Example provider timeline for "alice": tweets 120 and 110 are newer than
everything stored; 105, 101, 100 are already stored. -/
def timeline1 : List Doc :=
  [Doc.mk 120 "alice", Doc.mk 110 "alice", Doc.mk 105 "alice",
   Doc.mk 101 "alice", Doc.mk 100 "alice"]

/-- The `since_tweet_id` value `get_user_tweets` actually hands to
`retrieve_user_tweet` on the example feed: the pymongo result cursor, here
the single document the resume query returned. -/
def sp1 : SinceVal := SinceVal.docs [Doc.mk 105 "alice"]

/-- Walker state of the example run just after yielding tweet 120: the
cursor (built with `since_id=105`) still holds tweet 110, and `tweet` is the
yielded document 120. -/
def s1c : WalkerState :=
  ⟨⟨timeline1, Option.none, SinceVal.int 105, [Doc.mk 110 "alice"]⟩,
   some (Doc.mk 120 "alice")⟩

/-- Example thread fleet for the isolation property: units "a" and "b"
complete normally; unit "c" was configured to fail fatally after its first
write, so its sequence is truncated to that one write. -/
def unitsW : List (String × List Doc) :=
  [("a", [Doc.mk 1 "a", Doc.mk 2 "a"]), ("b", [Doc.mk 3 "b"]), ("c", [Doc.mk 4 "c"])]

/-- One concrete interleaving of the three units' writes. -/
def schedW : List (String × Doc) :=
  [("a", Doc.mk 1 "a"), ("c", Doc.mk 4 "c"), ("b", Doc.mk 3 "b"), ("a", Doc.mk 2 "a")]

/-- One-step unfolding of the walker run, for controlled rewriting. -/
lemma retrieve_succ (timeline : List Doc) (sp : SinceVal) (fuel : Nat)
    (s : WalkerState) (evs : List Event) :
    retrieve_user_tweet timeline sp (fuel + 1) s evs =
      match retrieve_user_tweet_step timeline sp s (schedHead evs) with
      | StepResult.yielded d s2 =>
        (d :: (retrieve_user_tweet timeline sp fuel s2 evs.tail).1,
         (retrieve_user_tweet timeline sp fuel s2 evs.tail).2)
      | StepResult.paused _ s2 => retrieve_user_tweet timeline sp fuel s2 evs.tail
      | StepResult.finished => ([], true) := rfl

/-- A loop iteration that yields consumed the head of the cursor's remaining
items and left the `since_id` parameter of the cursor untouched. -/
lemma step_yielded_rem (timeline : List Doc) (sp : SinceVal) (s : WalkerState) (e : Event)
    (d : Doc) (s2 : WalkerState)
    (h : retrieve_user_tweet_step timeline sp s e = StepResult.yielded d s2) :
    s.cursor.rem = d :: s2.cursor.rem ∧ s2.cursor.sinceId = s.cursor.sinceId := by
  obtain ⟨⟨tl, mx, si, rem⟩, lt⟩ := s
  cases e with
  | rateLimit => cases lt <;> simp [retrieve_user_tweet_step, cursorNext] at h
  | tweepErr => cases lt <;> simp [retrieve_user_tweet_step, cursorNext] at h
  | ok =>
    cases si with
    | docs ds => cases lt <;> simp [retrieve_user_tweet_step, cursorNext] at h
    | none =>
      cases rem with
      | nil => simp [retrieve_user_tweet_step, cursorNext] at h
      | cons a l =>
        simp only [retrieve_user_tweet_step, cursorNext, StepResult.yielded.injEq] at h
        obtain ⟨rfl, rfl⟩ := h
        exact ⟨rfl, rfl⟩
    | int m =>
      cases rem with
      | nil => simp [retrieve_user_tweet_step, cursorNext] at h
      | cons a l =>
        simp only [retrieve_user_tweet_step, cursorNext, StepResult.yielded.injEq] at h
        obtain ⟨rfl, rfl⟩ := h
        exact ⟨rfl, rfl⟩

/-- A loop iteration that pauses left the state untouched (nothing yielded
yet) or rebuilt the cursor with `max_id` set to the last yielded tweet and
`since_id` set to the `since_tweet_id` argument. -/
lemma step_paused_state (timeline : List Doc) (sp : SinceVal) (s : WalkerState) (e : Event)
    (k : Nat) (s2 : WalkerState)
    (h : retrieve_user_tweet_step timeline sp s e = StepResult.paused k s2) :
    s2 = s ∨ ∃ t, s.lastTweet = some t ∧
      s2 = ⟨mkCursor timeline (some t.id) sp, some t⟩ := by
  obtain ⟨⟨tl, mx, si, rem⟩, lt⟩ := s
  cases e with
  | rateLimit =>
    cases lt with
    | none =>
      simp only [retrieve_user_tweet_step, cursorNext, StepResult.paused.injEq] at h
      exact Or.inl h.2.symm
    | some t =>
      simp only [retrieve_user_tweet_step, cursorNext, StepResult.paused.injEq] at h
      exact Or.inr ⟨t, rfl, h.2.symm⟩
  | tweepErr =>
    cases lt with
    | none =>
      simp only [retrieve_user_tweet_step, cursorNext, StepResult.paused.injEq] at h
      exact Or.inl h.2.symm
    | some t =>
      simp only [retrieve_user_tweet_step, cursorNext, StepResult.paused.injEq] at h
      exact Or.inr ⟨t, rfl, h.2.symm⟩
  | ok =>
    cases si with
    | docs ds =>
      cases lt with
      | none =>
        simp only [retrieve_user_tweet_step, cursorNext, StepResult.paused.injEq] at h
        exact Or.inl h.2.symm
      | some t =>
        simp only [retrieve_user_tweet_step, cursorNext, StepResult.paused.injEq] at h
        exact Or.inr ⟨t, rfl, h.2.symm⟩
    | none => cases rem <;> simp [retrieve_user_tweet_step, cursorNext] at h
    | int m => cases rem <;> simp [retrieve_user_tweet_step, cursorNext] at h

/-- Once the walker's cursor carries a non-id `since_id` and some tweet has
already been yielded, every later iteration raises the transient error and
rebuilds an equally invalid cursor: no item is ever yielded again. -/
lemma retrieve_docs_since_no_yield (timeline ds : List Doc) :
    ∀ (fuel : Nat) (s : WalkerState) (evs : List Event) (ds0 : List Doc) (t : Doc),
      s.cursor.sinceId = SinceVal.docs ds0 → s.lastTweet = some t →
      (retrieve_user_tweet timeline (SinceVal.docs ds) fuel s evs).1 = [] := by
  intro fuel
  induction fuel with
  | zero => intros; simp [retrieve_user_tweet]
  | succ n ih =>
    intro s evs ds0 t hsi hlt
    obtain ⟨⟨tl, mx, si, rem⟩, lt⟩ := s
    simp only [] at hsi hlt
    subst hsi
    subst hlt
    cases hE : schedHead evs <;>
      simp only [retrieve_user_tweet, retrieve_user_tweet_step, cursorNext, hE] <;>
      exact ih _ _ ds t rfl rfl

/-- The body of the `for tweet in retrieve_user_tweet(...)` loop of
`get_user_tweets` performs exactly one store write per yielded item, in
yield order. -/
lemma sync_loop_eq (timeline : List Doc) (sp : SinceVal) :
    ∀ (fuel : Nat) (s : WalkerState) (evs : List Event),
      sync_loop timeline sp fuel s evs =
        ((retrieve_user_tweet timeline sp fuel s evs).1.map StoreOp.write,
         (retrieve_user_tweet timeline sp fuel s evs).2) := by
  intro fuel
  induction fuel with
  | zero => intros; rfl
  | succ n ih =>
    intro s evs
    simp only [sync_loop, retrieve_user_tweet]
    cases h : retrieve_user_tweet_step timeline sp s (schedHead evs) <;> simp [ih]

/-- Extracting the written documents from a trace of one read followed by
writes recovers the written documents. -/
lemma writesOfOps_read_map (user : String) (l : List Doc) :
    writesOfOps (StoreOp.read user :: l.map StoreOp.write) = l := by
  induction l with
  | nil => rfl
  | cons a t ih =>
    simp only [writesOfOps, List.filterMap_cons, List.map_cons] at ih ⊢
    simpa using ih

/-- The documents a `get_user_tweets` run writes are exactly the items the
`retrieve_user_tweet` generator yields, in order. -/
lemma writesOf_get_user_tweets (timeline coll : List Doc) (user : String)
    (fuel : Nat) (evs : List Event) :
    writesOf (get_user_tweets timeline coll user fuel evs) =
      (retrieve_user_tweet timeline (SinceVal.docs (find_docs coll user 1)) fuel
        ⟨mkCursor timeline Option.none (toSince (latest_tweet_id coll user)), Option.none⟩
        evs).1 := by
  simp only [writesOf, get_user_tweets, latest_tweet_id, sync_loop_eq]
  exact writesOfOps_read_map user _

/-- A fault-free walker run over a cursor with a well-formed `since_id`
yields exactly the cursor's remaining items and then returns on
`StopIteration`, using one loop iteration per item plus one final
iteration. -/
lemma retrieve_all_ok (timeline : List Doc) (sp : SinceVal) :
    ∀ (rem tl : List Doc) (mx : Option Nat) (si : SinceVal) (lt : Option Doc),
      (∀ ds, si ≠ SinceVal.docs ds) →
      retrieve_user_tweet timeline sp (rem.length + 1) ⟨⟨tl, mx, si, rem⟩, lt⟩ [] =
        (rem, true) := by
  intro rem
  induction rem with
  | nil =>
    intro tl mx si lt hsi
    cases si with
    | docs ds => exact absurd rfl (hsi ds)
    | none => simp [retrieve_user_tweet, retrieve_user_tweet_step, cursorNext, schedHead]
    | int m => simp [retrieve_user_tweet, retrieve_user_tweet_step, cursorNext, schedHead]
  | cons a l ih =>
    intro tl mx si lt hsi
    have hstep : retrieve_user_tweet_step timeline sp ⟨⟨tl, mx, si, a :: l⟩, lt⟩ Event.ok =
        StepResult.yielded a ⟨⟨tl, mx, si, l⟩, some a⟩ := by
      cases si with
      | docs ds => exact absurd rfl (hsi ds)
      | none => rfl
      | int m => rfl
    have h1 : retrieve_user_tweet timeline sp ((a :: l).length + 1)
        ⟨⟨tl, mx, si, a :: l⟩, lt⟩ [] =
        (a :: (retrieve_user_tweet timeline sp (l.length + 1) ⟨⟨tl, mx, si, l⟩, some a⟩ []).1,
         (retrieve_user_tweet timeline sp (l.length + 1) ⟨⟨tl, mx, si, l⟩, some a⟩ []).2) := by
      rw [List.length_cons, retrieve_succ]
      simp only [schedHead, List.tail_nil, hstep]
    rw [h1, ih tl mx si (some a) hsi]

/-- When every remaining cursor item has id above `M` and the
`since_tweet_id` argument is the pymongo cursor object (as passed at
line 194), every item the walker yields — under any fault schedule and any
fuel — has id above `M`: a rebuilt cursor is invalid and yields nothing. -/
lemma retrieve_yields_gt (timeline ds : List Doc) (M : Nat) :
    ∀ (fuel : Nat) (s : WalkerState) (evs : List Event),
      (∀ d ∈ s.cursor.rem, M < d.id) →
      ∀ d ∈ (retrieve_user_tweet timeline (SinceVal.docs ds) fuel s evs).1, M < d.id := by
  intro fuel
  induction fuel with
  | zero => intro s evs _ d hd; simp [retrieve_user_tweet] at hd
  | succ n ih =>
    intro s evs hinv d hd
    cases hstep : retrieve_user_tweet_step timeline (SinceVal.docs ds) s
        (schedHead evs) with
    | yielded d0 s2 =>
      simp only [retrieve_user_tweet, hstep, List.mem_cons] at hd
      obtain ⟨hrem, _⟩ := step_yielded_rem _ _ _ _ _ _ hstep
      rcases hd with rfl | hd
      · exact hinv d (hrem ▸ List.mem_cons_self d s2.cursor.rem)
      · exact ih s2 evs.tail
          (fun x hx => hinv x (hrem ▸ List.mem_cons_of_mem d0 hx)) d hd
    | paused k s2 =>
      simp only [retrieve_user_tweet, hstep] at hd
      rcases step_paused_state _ _ _ _ _ _ hstep with heq | ⟨t, _, heq⟩
      · subst heq
        exact ih _ evs.tail hinv d hd
      · subst heq
        exact ih _ evs.tail (by simp [mkCursor]) d hd
    | finished => simp [retrieve_user_tweet, hstep] at hd

/-- Bounded retry of `write_doc_to_collection`: a run of transient
connectivity failures followed by a successful attempt ends in the document
being inserted, with the client reset once per failure. -/
lemma write_retry_transient (coll : String) (d : Doc) :
    ∀ (sched : List (Option MongoErr)) (st : MongoState),
      (∀ x ∈ sched, ∃ err, x = some err ∧ isTransientConn err = true) →
      write_doc_to_collection st coll d (sched ++ [Option.none]) =
        Except.ok (insertDoc { st with resets := st.resets + sched.length } coll d) := by
  intro sched
  induction sched with
  | nil => intro st _; simp [write_doc_to_collection]
  | cons x rest ih =>
    intro st htrans
    obtain ⟨err, rfl, herr⟩ := htrans _ (List.mem_cons_self _ rest)
    have hrec := ih (reset_client st) (fun y hy => htrans y (List.mem_cons_of_mem _ hy))
    have hstep : write_doc_to_collection st coll d ((some err :: rest) ++ [Option.none]) =
        write_doc_to_collection (reset_client st) coll d (rest ++ [Option.none]) := by
      simp [write_doc_to_collection, herr]
    rw [hstep, hrec]
    have harith : (reset_client st).resets + rest.length =
        st.resets + (some err :: rest).length := by
      simp [reset_client]
      omega
    rw [harith]
    rfl

/-- Applying an interleaved write schedule to the store leaves each
collection holding its prior content followed by exactly the scheduled
writes that target it, in schedule order. -/
lemma applySchedule_filter (sched : List (String × Doc)) :
    ∀ (store : String → List Doc) (c : String),
      applySchedule sched store c =
        store c ++ (sched.filter (fun op => decide (op.1 = c))).map Prod.snd := by
  induction sched with
  | nil => intro store c; simp [applySchedule]
  | cons op rest ih =>
    intro store c
    simp only [applySchedule, List.foldl_cons] at ih ⊢
    rw [ih]
    by_cases h : op.1 = c
    · simp [h, List.filter_cons]
    · have h2 : ¬ c = op.1 := fun hc => h hc.symm
      simp [h, h2, List.filter_cons]

/-- C5: a transient provider error (`tweepy.TweepError`) is handled by
exactly the same suspend-and-resume policy as a rate-limit-exhaustion
signal (`tweepy.RateLimitError`): in every walker state, the loop iteration
produces the identical result — the same bound adjustment from the last
yielded item (if any) and the same 15-minute pause. -/
theorem claim_C5 (timeline : List Doc) (since_tweet_id : SinceVal) (s : WalkerState) :
    retrieve_user_tweet_step timeline since_tweet_id s Event.tweepErr =
      retrieve_user_tweet_step timeline since_tweet_id s Event.rateLimit := by
  obtain ⟨c, lt⟩ := s
  cases lt <;> rfl

/-- C6: for a feed whose provider timeline holds finitely many items, a
fault-free run of the Cursor Walker terminates normally when the provider
reports end-of-data (`StopIteration`), having yielded exactly the items of
the timeline — one loop iteration per item plus the final one. -/
theorem claim_C6 (timeline : List Doc) :
    retrieve_user_tweet timeline SinceVal.none (timeline.length + 1)
      ⟨mkCursor timeline Option.none SinceVal.none, Option.none⟩ [] = (timeline, true) := by
  have hc : mkCursor timeline Option.none SinceVal.none =
      ⟨timeline, Option.none, SinceVal.none, timeline⟩ := by
    simp [mkCursor, maxOk]
  rw [hc]
  exact retrieve_all_ok timeline SinceVal.none timeline timeline Option.none SinceVal.none
    Option.none (fun ds h => SinceVal.noConfusion h)

/-- C7: a `get_user_tweets` run performs exactly one store read (the
Resume Locator query) followed by one store write per item the Cursor
Walker yields, as it arrives and in yield order — no other store
operations. -/
theorem claim_C7 (timeline coll : List Doc) (user : String) (fuel : Nat) (evs : List Event) :
    (get_user_tweets timeline coll user fuel evs).ops =
      StoreOp.read user ::
        ((retrieve_user_tweet timeline (SinceVal.docs (find_docs coll user 1)) fuel
          ⟨mkCursor timeline Option.none (toSince (latest_tweet_id coll user)), Option.none⟩
          evs).1.map StoreOp.write) := by
  simp [get_user_tweets, latest_tweet_id, sync_loop_eq]

/-- C9: the Resume Locator query filters on `user.screen_name`, so a
document in the feed's collection whose embedded `user.screen_name` differs
from the feed identity is ignored when computing the resume lower bound:
adding such a document changes nothing, and restricting the collection to
matching documents changes nothing. -/
theorem claim_C9 (coll : List Doc) (user : String) (d : Doc)
    (hd : d.screenName ≠ user) :
    latest_tweet_id (d :: coll) user = latest_tweet_id coll user ∧
    latest_tweet_id coll user =
      latest_tweet_id (coll.filter (fun x => decide (x.screenName = user))) user := by
  constructor
  · simp [latest_tweet_id, find_docs, List.filter_cons, hd]
  · simp [latest_tweet_id, find_docs, List.filter_filter]

/-- C10: when the maximum stored id for the feed is 0 — a falsy value in
Python — `get_user_tweets` takes the first-sync diagnostic branch (line 188
tests truthiness, and `0` is falsy like `None`), while the integer lower
bound 0 is still passed as `since_id` in the provider request of
line 193. -/
theorem claim_C10 (timeline coll : List Doc) (user : String) (fuel : Nat) (evs : List Event)
    (h : latest_tweet_id coll user = some 0) :
    (get_user_tweets timeline coll user fuel evs).updateDiag = false ∧
    (get_user_tweets timeline coll user fuel evs).requestSince = SinceVal.int 0 := by
  have h2 : (find_docs coll user 1).foldl (fun _ d => some d.id) Option.none = some 0 := h
  constructor
  · simp [get_user_tweets, h2, truthy]
  · simp [get_user_tweets, h2, toSince]

/-- C10 witness: a stored document with id 0 makes the run report
"Extracting" (first sync) while requesting with lower bound 0. -/
theorem claim_C10_witness :
    latest_tweet_id [Doc.mk 0 "alice"] "alice" = some 0 ∧
    ((get_user_tweets timeline1 [Doc.mk 0 "alice"] "alice" 1 []).updateDiag = false ∧
     (get_user_tweets timeline1 [Doc.mk 0 "alice"] "alice" 1 []).requestSince =
       SinceVal.int 0) :=
  ⟨by decide, claim_C10 timeline1 [Doc.mk 0 "alice"] "alice" 1 [] (by decide)⟩

/-- C9 witness: a stray document with id 999 under screen name "bob" in
alice's collection leaves alice's resume bound untouched. -/
theorem claim_C9_witness :
    (Doc.mk 999 "bob").screenName ≠ "alice" ∧
    (latest_tweet_id (Doc.mk 999 "bob" :: coll1) "alice" = latest_tweet_id coll1 "alice" ∧
     latest_tweet_id coll1 "alice" =
       latest_tweet_id (coll1.filter (fun x => decide (x.screenName = "alice"))) "alice") :=
  ⟨by decide, claim_C9 coll1 "alice" (Doc.mk 999 "bob") (by decide)⟩

/-- C4, counterexample to the claim as stated: `find_docs` does not reset
and retry on a transient connectivity failure — the `NetworkTimeout`
propagates to the caller unchanged (the method body has no `try`/`except`),
even though the failure is one of the transient kinds the write path
retries. -/
theorem claim_C4_counterexample :
    find_docs_gw mongoInit "alice" "alice" 1 (some MongoErr.networkTimeout) =
      Except.error MongoErr.networkTimeout ∧
    isTransientConn MongoErr.networkTimeout = true :=
  ⟨rfl, rfl⟩

/-- C4, amended: `write_doc_to_collection` resets the connection and
retries the same write on every transient connectivity failure until an
attempt succeeds; `find_docs` performs no retry — any failure of the query
propagates to the caller (and on success it returns the query result with
the connection untouched), so the Resume Locator's tolerance to transient
store failure covers only what pymongo itself recovers, not a gateway-level
retry. -/
theorem claim_C4_amended (st : MongoState) (coll user : String) (d : Doc) (limit : Nat)
    (e : MongoErr) (sched : List (Option MongoErr))
    (htrans : ∀ x ∈ sched, ∃ err, x = some err ∧ isTransientConn err = true) :
    write_doc_to_collection st coll d (sched ++ [Option.none]) =
      Except.ok (insertDoc { st with resets := st.resets + sched.length } coll d) ∧
    find_docs_gw st coll user limit (some e) = Except.error e ∧
    find_docs_gw st coll user limit Option.none =
      Except.ok (find_docs (st.colls coll) user limit, st) :=
  ⟨write_retry_transient coll d sched st htrans, rfl, rfl⟩

/-- C4 witness: one `NetworkTimeout` then success — the write lands after
one reset; a `ConnectionFailure` during the query propagates; a clean query
succeeds without touching the connection. -/
theorem claim_C4_witness :
    (∀ x ∈ [some MongoErr.networkTimeout], ∃ err, x = some err ∧ isTransientConn err = true) ∧
    (write_doc_to_collection mongoInit "alice" (Doc.mk 110 "alice")
        ([some MongoErr.networkTimeout] ++ [Option.none]) =
      Except.ok (insertDoc
        { mongoInit with resets := mongoInit.resets + [some MongoErr.networkTimeout].length }
        "alice" (Doc.mk 110 "alice")) ∧
     find_docs_gw mongoInit "alice" "alice" 1 (some MongoErr.connectionFailure) =
       Except.error MongoErr.connectionFailure ∧
     find_docs_gw mongoInit "alice" "alice" 1 Option.none =
       Except.ok (find_docs (mongoInit.colls "alice") "alice" 1, mongoInit)) :=
  ⟨fun x hx => ⟨MongoErr.networkTimeout, List.mem_singleton.mp hx, rfl⟩,
   claim_C4_amended mongoInit "alice" "alice" (Doc.mk 110 "alice") 1
     MongoErr.connectionFailure [some MongoErr.networkTimeout]
     (fun x hx => ⟨MongoErr.networkTimeout, List.mem_singleton.mp hx, rfl⟩)⟩

/-- C3: for a collection whose documents all carry the feed's screen name,
the Resume Locator returns `None` exactly when the collection is empty (or
does not yet exist), any id it returns is the id of a stored document and
an upper bound for every stored document's id, and on an empty collection
the first sync's provider request carries no lower bound
(`since_id=None`). -/
theorem claim_C3 (coll : List Doc) (user : String) (timeline : List Doc)
    (fuel : Nat) (evs : List Event)
    (hall : ∀ d ∈ coll, d.screenName = user) :
    (latest_tweet_id coll user = Option.none ↔ coll = []) ∧
    (∀ M, latest_tweet_id coll user = some M →
      M ∈ coll.map Doc.id ∧ ∀ d ∈ coll, d.id ≤ M) ∧
    (coll = [] → (get_user_tweets timeline coll user fuel evs).requestSince =
      SinceVal.none) := by
  have hfilter : coll.filter (fun d => decide (d.screenName = user)) = coll := by
    rw [List.filter_eq_self]
    intro a ha
    simp [hall a ha]
  have hperm :
      List.Perm
        (List.insertionSort descId (coll.filter (fun d => decide (d.screenName = user))))
        coll := by
    rw [hfilter]
    exact List.perm_insertionSort descId coll
  have hsorted :=
    List.sorted_insertionSort descId (coll.filter (fun d => decide (d.screenName = user)))
  have hlt : latest_tweet_id coll user =
      ((List.insertionSort descId
        (coll.filter (fun d => decide (d.screenName = user)))).take 1).foldl
        (fun _ d => some d.id) Option.none := by
    simp [latest_tweet_id, find_docs]
  cases hs : List.insertionSort descId (coll.filter (fun d => decide (d.screenName = user)))
    with
  | nil =>
    rw [hs] at hlt hperm
    have hc : coll = [] := hperm.symm.eq_nil
    subst hc
    refine ⟨by simp [hlt], ?_, fun _ => rfl⟩
    intro M hM
    rw [hlt] at hM
    simp at hM
  | cons a rest =>
    rw [hs] at hlt hperm hsorted
    have ha : a ∈ coll := hperm.mem_iff.mp (List.mem_cons_self a rest)
    have hne : coll ≠ [] := by
      intro h
      subst h
      exact absurd ha (List.not_mem_nil a)
    have hval : latest_tweet_id coll user = some a.id := by
      rw [hlt]
      rfl
    refine ⟨?_, ?_, fun hc => absurd hc hne⟩
    · rw [hval]
      simp [hne]
    · intro M hM
      rw [hval] at hM
      obtain rfl : a.id = M := Option.some.inj hM
      constructor
      · exact List.mem_map.mpr ⟨a, ha, rfl⟩
      · intro d hd
        have hd2 : d ∈ a :: rest := hperm.mem_iff.mpr hd
        rcases List.mem_cons.mp hd2 with rfl | hmem
        · exact le_refl _
        · exact List.rel_of_sorted_cons hsorted d hmem

/-- C3 witness: on the concrete collection of ids 100, 101, 105 for
"alice", the locator behaves as stated. -/
theorem claim_C3_witness :
    (∀ d ∈ coll1, d.screenName = "alice") ∧
    ((latest_tweet_id coll1 "alice" = Option.none ↔ coll1 = []) ∧
     (∀ M, latest_tweet_id coll1 "alice" = some M →
       M ∈ coll1.map Doc.id ∧ ∀ d ∈ coll1, d.id ≤ M) ∧
     (coll1 = [] → (get_user_tweets timeline1 coll1 "alice" 1 []).requestSince =
       SinceVal.none)) :=
  ⟨by decide, claim_C3 coll1 "alice" timeline1 1 [] (by decide)⟩

/-- C2: when the stored maximum id for the feed is `M`, the sync run's
provider request carries the exclusive lower bound `M`, and — under every
fault schedule and every fuel — every document the run writes has id
strictly above `M`; on the §8 example (stored maximum 105, provider holding
120 and 110 above it) the run writes exactly the documents 120 and 110, in
provider order. -/
theorem claim_C2 (coll : List Doc) (user : String) (timeline : List Doc)
    (M : Nat) (fuel : Nat) (evs : List Event)
    (hM : latest_tweet_id coll user = some M) :
    (get_user_tweets timeline coll user fuel evs).requestSince = SinceVal.int M ∧
    (∀ d ∈ writesOf (get_user_tweets timeline coll user fuel evs), M < d.id) ∧
    writesOf (get_user_tweets timeline1 coll1 "alice" 3 []) =
      [Doc.mk 120 "alice", Doc.mk 110 "alice"] := by
  have h2 : (find_docs coll user 1).foldl (fun _ d => some d.id) Option.none = some M := hM
  refine ⟨by simp [get_user_tweets, h2, toSince], ?_, by decide⟩
  intro d hd
  rw [writesOf_get_user_tweets] at hd
  refine retrieve_yields_gt timeline (find_docs coll user 1) M fuel _ evs ?_ d hd
  intro x hx
  rw [hM] at hx
  simp only [toSince, mkCursor, List.mem_filter, maxOk, Bool.true_and,
    decide_eq_true_eq] at hx
  exact hx.2

/-- C2 witness: the §8 example run, fault-free. -/
theorem claim_C2_witness :
    latest_tweet_id coll1 "alice" = some 105 ∧
    ((get_user_tweets timeline1 coll1 "alice" 3 []).requestSince = SinceVal.int 105 ∧
     (∀ d ∈ writesOf (get_user_tweets timeline1 coll1 "alice" 3 []), 105 < d.id) ∧
     writesOf (get_user_tweets timeline1 coll1 "alice" 3 []) =
       [Doc.mk 120 "alice", Doc.mk 110 "alice"]) :=
  ⟨by decide, claim_C2 coll1 "alice" timeline1 105 3 [] (by decide)⟩

/-- C8: under any interleaving of the per-thread write sequences — in
particular one where some unit's sequence was truncated by a fatal store
error that terminated only that thread — every unit's collection ends up
holding exactly that unit's own writes, in order, appended to its prior
content: one unit's failure neither cancels nor corrupts its siblings'
persistence. -/
theorem claim_C8 (units : List (String × List Doc)) (sched : List (String × Doc))
    (store0 : String → List Doc) (h : IsThreadSchedule units sched) :
    ∀ u ∈ units, applySchedule sched store0 u.1 = store0 u.1 ++ u.2 := by
  intro u hu
  rw [applySchedule_filter, h u hu]

/-- C8 witness: three units, "c" truncated to one write by its fatal error,
interleaved arbitrarily; "a" and "b" still persist everything. -/
theorem claim_C8_witness :
    IsThreadSchedule unitsW schedW ∧
    ∀ u ∈ unitsW, applySchedule schedW (fun _ => []) u.1 =
      (fun _ => ([] : List Doc)) u.1 ++ u.2 :=
  ⟨by unfold IsThreadSchedule; decide,
   claim_C8 unitsW schedW (fun _ => []) (by unfold IsThreadSchedule; decide)⟩

/-- C1, exhibiting the line-194 bug: on the §8 feed (stored maximum 105,
provider holding 120 and 110 above it), with a rate-limit signal right
after tweet 120 is yielded, the run writes only tweet 120 no matter how
much longer it keeps going: tweet 110 — strictly between the run's original
lower bound 105 and the last yielded id 120, and present in the timeline —
is skipped forever.  The reason: the walker rebuilds the cursor with
`since_id` equal to its `since_tweet_id` argument, and `get_user_tweets`
passed the pymongo result cursor (`latest_tweet_doc`, here the document
list holding id 105) in that position instead of the integer
`latest_tweet_id`, so the resumed page walk is not constrained to the run's
original lower bound 105. -/
theorem claim_C1_bug :
    (∀ fuel : Nat,
      writesOf (get_user_tweets timeline1 coll1 "alice" (fuel + 1)
        [Event.ok, Event.rateLimit]) = [Doc.mk 120 "alice"]) ∧
    (Doc.mk 110 "alice" ∈ timeline1 ∧ 105 < 110 ∧ 110 < 120) ∧
    retrieve_user_tweet_step timeline1 sp1 s1c Event.rateLimit =
      StepResult.paused (15 * 60)
        ⟨mkCursor timeline1 (some 120) (SinceVal.docs [Doc.mk 105 "alice"]),
         some (Doc.mk 120 "alice")⟩ ∧
    sp1 = SinceVal.docs (find_docs coll1 "alice" 1) ∧
    sp1 ≠ SinceVal.int 105 := by
  refine ⟨?_, by decide, by decide, by decide, by decide⟩
  intro fuel
  rw [writesOf_get_user_tweets]
  have hstep1 : retrieve_user_tweet_step timeline1
      (SinceVal.docs (find_docs coll1 "alice" 1))
      ⟨mkCursor timeline1 Option.none (toSince (latest_tweet_id coll1 "alice")), Option.none⟩
      (schedHead [Event.ok, Event.rateLimit]) =
      StepResult.yielded (Doc.mk 120 "alice") s1c := by decide
  simp only [retrieve_succ, hstep1, List.tail_cons]
  cases fuel with
  | zero => rfl
  | succ n =>
    have hstep2 : retrieve_user_tweet_step timeline1
        (SinceVal.docs (find_docs coll1 "alice" 1)) s1c (schedHead [Event.rateLimit]) =
        StepResult.paused (15 * 60)
          ⟨mkCursor timeline1 (some 120) (SinceVal.docs (find_docs coll1 "alice" 1)),
           some (Doc.mk 120 "alice")⟩ := by decide
    simp only [retrieve_succ, hstep2, List.tail_cons]
    rw [retrieve_docs_since_no_yield timeline1 (find_docs coll1 "alice" 1) n
      ⟨mkCursor timeline1 (some 120) (SinceVal.docs (find_docs coll1 "alice" 1)),
       some (Doc.mk 120 "alice")⟩ [] (find_docs coll1 "alice" 1) (Doc.mk 120 "alice")
      rfl rfl]

end TweetCollector
